import Mathlib

/-!
Shallow embedding of the `escrow` Solana program (agro-mark,
`src/smart-contracts/programs/escrow/src/lib.rs`) together with the parts of
the `marketplace` program it consumes (`Product`, `CurrencyType`,
`ProductStatus`, `MarketplaceState.authority`, `purchase_product`).

Modelling conventions:
- public keys are `Nat`; `u64` quantities are `Nat` with explicit `% 2^64`
  where the Rust code can overflow (release-mode wrapping `+`), and
  `checked_mul` returns `none` exactly when the product reaches `2^64`;
- Anchor `#[account(constraint = ...)]` checks run when the accounts are
  deserialized, before the handler body, in declaration order; they are the
  leading `if`s of each operation;
- a cross-program transfer (system program or SPL token program) moves the
  stated amount from a source balance to a destination balance and fails when
  the source balance is insufficient (`ExternalTransferFailed`, standing for
  the invoked program's own error); the Solana runtime rolls back the whole
  transaction on any failure, which the `Except` result models: an `error`
  outcome carries no post-state;
- `Chain` bundles the escrow record with the balances (in the record's
  currency) of buyer, custody vault and seller, the product account and the
  marketplace authority; `Clock::get()?.unix_timestamp` is a `clock : Int`
  parameter;
- Rust `String::len()` is the UTF-8 byte length, embedded as
  `String.utf8ByteSize`.
-/

namespace AgroMark

/-- `CurrencyType` from `marketplace/src/lib.rs`. -/
inductive CurrencyType where
  | SOL
  | USDC
  | USDT
  deriving DecidableEq, Repr

/-- `ProductStatus` from `marketplace/src/lib.rs`. -/
inductive ProductStatus where
  | Active
  | SoldOut
  | Deactivated
  | Flagged
  deriving DecidableEq, Repr

/-- The fields of `marketplace::Product` that the escrow program and
`purchase_product` read (keys as `Nat`, strings omitted: they are never read
by the modelled operations). -/
structure Product where
  marketplace : Nat
  seller : Nat
  price : Nat
  quantity : Nat
  currency : CurrencyType
  status : ProductStatus
  created_at : Int
  updated_at : Int
  deriving DecidableEq, Repr

/-- `EscrowStatus` from `escrow/src/lib.rs`. -/
inductive EscrowStatus where
  | Created
  | Funded
  | Shipped
  | Completed
  | Disputed
  | Cancelled
  | Refunded
  deriving DecidableEq, Repr

/-- `EscrowError` from `escrow/src/lib.rs`, plus `ExternalTransferFailed`
standing for a failure reported by the invoked system/token program during a
cross-program transfer (the handler propagates it with `?`). -/
inductive EscrowError where
  | InvalidQuantity
  | CalculationError
  | InvalidEscrowState
  | InsufficientFunds
  | UnauthorizedBuyer
  | UnauthorizedSeller
  | UnauthorizedAuthority
  | Unauthorized
  | TrackingIdTooLong
  | DisputeReasonTooLong
  | InvalidEscrowAccount
  | ExternalTransferFailed
  deriving DecidableEq, Repr

/-- The `Escrow` account record from `escrow/src/lib.rs`. -/
structure Escrow where
  marketplace : Nat
  buyer : Nat
  seller : Nat
  product : Nat
  quantity : Nat
  amount : Nat
  currency : CurrencyType
  status : EscrowStatus
  created_at : Int
  updated_at : Int
  bump : Nat
  deriving DecidableEq, Repr

/-- One escrow's on-chain neighbourhood: the record, the balances (in the
record's currency) of the three relevant accounts, the product account and
the marketplace authority key read by `resolve_dispute`. -/
structure Chain where
  escrow : Escrow
  vault : Nat
  buyerBal : Nat
  sellerBal : Nat
  product : Product
  mpAuthority : Nat
  deriving DecidableEq, Repr

/-- `2^64`, the modulus of Rust `u64` arithmetic. -/
def U64LIMIT : Nat := 18446744073709551616

/-- Rust `u64::checked_mul` on in-range operands. -/
def checked_mul (a b : Nat) : Option Nat :=
  if a * b < U64LIMIT then some (a * b) else none

/-- The funding threshold `escrow.amount + rent.minimum_balance(0)` computed
with Rust's release-mode (wrapping) `u64` addition, `escrow/src/lib.rs:60`. -/
def requiredLamports (amount rentMin : Nat) : Nat :=
  (amount + rentMin) % U64LIMIT

/-- `create_escrow` (`escrow/src/lib.rs:16-42`): validates `quantity > 0`,
computes `product.price.checked_mul(quantity)`, and initializes the record. -/
def create_escrow (marketplaceKey buyerKey productKey : Nat) (product : Product)
    (quantity : Nat) (clock : Int) (bump : Nat) : Except EscrowError Escrow :=
  if quantity > 0 then
    match checked_mul product.price quantity with
    | none => .error .CalculationError
    | some total_amount =>
        .ok { marketplace := marketplaceKey
              buyer := buyerKey
              seller := product.seller
              product := productKey
              quantity := quantity
              amount := total_amount
              currency := product.currency
              status := .Created
              created_at := clock
              updated_at := clock
              bump := bump }
  else .error .InvalidQuantity

/-- `fund_escrow` (`escrow/src/lib.rs:45-105`).  The `FundEscrow` account
constraint `escrow.buyer == buyer.key()` runs first; then the status check;
then the currency dispatch.  In the SOL branch the buyer's balance is checked
against `amount + rent.minimum_balance(0)` (wrapping add) before the system
transfer of `amount`; the token branch delegates directly to the token
program. -/
def fund_escrow (c : Chain) (signer rentMin : Nat) (clock : Int) :
    Except EscrowError Chain :=
  if c.escrow.buyer = signer then
    if c.escrow.status = .Created then
      match c.escrow.currency with
      | .SOL =>
          if c.buyerBal ≥ requiredLamports c.escrow.amount rentMin then
            if c.escrow.amount ≤ c.buyerBal then
              .ok { c with
                    buyerBal := c.buyerBal - c.escrow.amount
                    vault := c.vault + c.escrow.amount
                    escrow := { c.escrow with status := .Funded, updated_at := clock } }
            else .error .ExternalTransferFailed
          else .error .InsufficientFunds
      | .USDC | .USDT =>
          if c.escrow.amount ≤ c.buyerBal then
            .ok { c with
                  buyerBal := c.buyerBal - c.escrow.amount
                  vault := c.vault + c.escrow.amount
                  escrow := { c.escrow with status := .Funded, updated_at := clock } }
          else .error .ExternalTransferFailed
    else .error .InvalidEscrowState
  else .error .UnauthorizedBuyer

/-- `mark_as_shipped` (`escrow/src/lib.rs:108-138`).  The `MarkAsShipped`
constraint `escrow.seller == seller.key()` runs first; the handler then checks
status, re-checks the seller, and validates an optional tracking id of at most
50 bytes (validated but not persisted). -/
def mark_as_shipped (c : Chain) (signer : Nat) (tracking : Option String)
    (clock : Int) : Except EscrowError Chain :=
  if c.escrow.seller = signer then
    if c.escrow.status = .Funded then
      if c.escrow.seller = signer then
        match tracking with
        | some tid =>
            if tid.utf8ByteSize ≤ 50 then
              .ok { c with escrow := { c.escrow with status := .Shipped, updated_at := clock } }
            else .error .TrackingIdTooLong
        | none =>
            .ok { c with escrow := { c.escrow with status := .Shipped, updated_at := clock } }
      else .error .UnauthorizedSeller
    else .error .InvalidEscrowState
  else .error .UnauthorizedSeller

/-- `confirm_delivery` (`escrow/src/lib.rs:141-220`).  `ConfirmDelivery`
constraints: `escrow.buyer == buyer.key()` (UnauthorizedBuyer) then
`escrow.seller == seller.key()` (InvalidEscrowAccount); handler: status check,
buyer re-check, then a custody-signed transfer of `amount` from the vault to
the seller on the record's currency rail. -/
def confirm_delivery (c : Chain) (signer sellerAcc : Nat) (clock : Int) :
    Except EscrowError Chain :=
  if c.escrow.buyer = signer then
    if c.escrow.seller = sellerAcc then
      if c.escrow.status = .Shipped then
        if c.escrow.buyer = signer then
          match c.escrow.currency with
          | .SOL =>
              if c.escrow.amount ≤ c.vault then
                .ok { c with
                      vault := c.vault - c.escrow.amount
                      sellerBal := c.sellerBal + c.escrow.amount
                      escrow := { c.escrow with status := .Completed, updated_at := clock } }
              else .error .ExternalTransferFailed
          | .USDC | .USDT =>
              if c.escrow.amount ≤ c.vault then
                .ok { c with
                      vault := c.vault - c.escrow.amount
                      sellerBal := c.sellerBal + c.escrow.amount
                      escrow := { c.escrow with status := .Completed, updated_at := clock } }
              else .error .ExternalTransferFailed
        else .error .UnauthorizedBuyer
      else .error .InvalidEscrowState
    else .error .InvalidEscrowAccount
  else .error .UnauthorizedBuyer

/-- `dispute_transaction` (`escrow/src/lib.rs:223-252`).  `DisputeTransaction`
constraint: the signer is the buyer or the seller (Unauthorized); handler:
status must be Funded or Shipped, signer re-check, reason at most 200 bytes
(validated but not persisted). -/
def dispute_transaction (c : Chain) (signer : Nat) (reason : String)
    (clock : Int) : Except EscrowError Chain :=
  if c.escrow.buyer = signer ∨ c.escrow.seller = signer then
    if c.escrow.status = .Funded ∨ c.escrow.status = .Shipped then
      if signer = c.escrow.buyer ∨ signer = c.escrow.seller then
        if reason.utf8ByteSize ≤ 200 then
          .ok { c with escrow := { c.escrow with status := .Disputed, updated_at := clock } }
        else .error .DisputeReasonTooLong
      else .error .Unauthorized
    else .error .InvalidEscrowState
  else .error .Unauthorized

/-- `cancel_escrow` (`escrow/src/lib.rs:255-330`).  `CancelEscrow` constraint:
`escrow.buyer == buyer.key()`; handler: status must be Created or Funded, and
if Funded the vault refunds `amount` to the buyer on the record's currency
rail before the status is set to Cancelled. -/
def cancel_escrow (c : Chain) (signer : Nat) (clock : Int) :
    Except EscrowError Chain :=
  if c.escrow.buyer = signer then
    if c.escrow.status = .Created ∨ c.escrow.status = .Funded then
      if c.escrow.status = .Funded then
        match c.escrow.currency with
        | .SOL =>
            if c.escrow.amount ≤ c.vault then
              .ok { c with
                    vault := c.vault - c.escrow.amount
                    buyerBal := c.buyerBal + c.escrow.amount
                    escrow := { c.escrow with status := .Cancelled, updated_at := clock } }
            else .error .ExternalTransferFailed
        | .USDC | .USDT =>
            if c.escrow.amount ≤ c.vault then
              .ok { c with
                    vault := c.vault - c.escrow.amount
                    buyerBal := c.buyerBal + c.escrow.amount
                    escrow := { c.escrow with status := .Cancelled, updated_at := clock } }
            else .error .ExternalTransferFailed
      else
        .ok { c with escrow := { c.escrow with status := .Cancelled, updated_at := clock } }
    else .error .InvalidEscrowState
  else .error .UnauthorizedBuyer

/-- `resolve_dispute` (`escrow/src/lib.rs:333-425`).  `ResolveDispute`
constraints in declaration order: `marketplace.authority == authority.key()`
(UnauthorizedAuthority), then `escrow.buyer == buyer.key()` and
`escrow.seller == seller.key()` (InvalidEscrowAccount); handler: status must
be Disputed, authority re-check, then a custody-signed transfer of `amount`
from the vault to the seller (favor_seller) or the buyer, and the status
becomes Completed or Refunded accordingly. -/
def resolve_dispute (c : Chain) (signer buyerAcc sellerAcc : Nat)
    (favorSeller : Bool) (clock : Int) : Except EscrowError Chain :=
  if c.mpAuthority = signer then
    if c.escrow.buyer = buyerAcc then
      if c.escrow.seller = sellerAcc then
        if c.escrow.status = .Disputed then
          if c.mpAuthority = signer then
            match c.escrow.currency with
            | .SOL =>
                if c.escrow.amount ≤ c.vault then
                  if favorSeller then
                    .ok { c with
                          vault := c.vault - c.escrow.amount
                          sellerBal := c.sellerBal + c.escrow.amount
                          escrow := { c.escrow with status := .Completed, updated_at := clock } }
                  else
                    .ok { c with
                          vault := c.vault - c.escrow.amount
                          buyerBal := c.buyerBal + c.escrow.amount
                          escrow := { c.escrow with status := .Refunded, updated_at := clock } }
                else .error .ExternalTransferFailed
            | .USDC | .USDT =>
                if c.escrow.amount ≤ c.vault then
                  if favorSeller then
                    .ok { c with
                          vault := c.vault - c.escrow.amount
                          sellerBal := c.sellerBal + c.escrow.amount
                          escrow := { c.escrow with status := .Completed, updated_at := clock } }
                  else
                    .ok { c with
                          vault := c.vault - c.escrow.amount
                          buyerBal := c.buyerBal + c.escrow.amount
                          escrow := { c.escrow with status := .Refunded, updated_at := clock } }
                else .error .ExternalTransferFailed
          else .error .UnauthorizedAuthority
        else .error .InvalidEscrowState
      else .error .InvalidEscrowAccount
    else .error .InvalidEscrowAccount
  else .error .UnauthorizedAuthority

/-- `purchase_product` (`marketplace/src/lib.rs:124-154`): requires an Active
product with enough inventory, decrements it, and marks SoldOut at zero.
`true` stands for success; the two failure cases keep their error names. -/
inductive MarketplaceError where
  | ProductNotActive
  | InsufficientInventory
  deriving DecidableEq, Repr

def purchase_product (p : Product) (quantity : Nat) (clock : Int) :
    Except MarketplaceError Product :=
  if p.status = .Active then
    if p.quantity ≥ quantity then
      let q := p.quantity - quantity
      .ok { p with
            quantity := q
            status := if q = 0 then .SoldOut else p.status
            updated_at := clock }
    else .error .InsufficientInventory
  else .error .ProductNotActive

/-- A post-creation lifecycle invocation with its caller-supplied inputs. -/
inductive Op where
  | fund (signer rentMin : Nat) (clock : Int)
  | markShipped (signer : Nat) (tracking : Option String) (clock : Int)
  | confirmDelivery (signer sellerAcc : Nat) (clock : Int)
  | dispute (signer : Nat) (reason : String) (clock : Int)
  | cancel (signer : Nat) (clock : Int)
  | resolveDispute (signer buyerAcc sellerAcc : Nat) (favorSeller : Bool) (clock : Int)
  deriving DecidableEq, Repr

/-- Dispatch one lifecycle invocation to its handler. -/
def applyOp (c : Chain) : Op → Except EscrowError Chain
  | .fund s r t => fund_escrow c s r t
  | .markShipped s tid t => mark_as_shipped c s tid t
  | .confirmDelivery s sa t => confirm_delivery c s sa t
  | .dispute s reason t => dispute_transaction c s reason t
  | .cancel s t => cancel_escrow c s t
  | .resolveDispute s ba sa f t => resolve_dispute c s ba sa f t

/-- The post-transaction state: on failure the runtime rolls the whole
transaction back, so the chain is unchanged. -/
def runOp (c : Chain) (op : Op) : Chain :=
  match applyOp c op with
  | .ok c' => c'
  | .error _ => c

/-- Chains reachable from a successful `create_escrow` (custody vault starts
empty) by successful lifecycle operations. -/
inductive Reachable : Chain → Prop
  | created (mk bk pk : Nat) (p : Product) (q : Nat) (t : Int) (bump : Nat)
      (e : Escrow) (bBal sBal auth : Nat)
      (h : create_escrow mk bk pk p q t bump = .ok e) :
      Reachable { escrow := e, vault := 0, buyerBal := bBal, sellerBal := sBal,
                  product := p, mpAuthority := auth }
  | step (c : Chain) (op : Op) (c' : Chain) (hr : Reachable c)
      (h : applyOp c op = .ok c') : Reachable c'

/-- The spec's transition graph (§4.1): the edges a lifecycle operation is
allowed to take. -/
def transOK : EscrowStatus → EscrowStatus → Bool
  | .Created, .Funded => true
  | .Funded, .Shipped => true
  | .Shipped, .Completed => true
  | .Funded, .Disputed => true
  | .Shipped, .Disputed => true
  | .Created, .Cancelled => true
  | .Funded, .Cancelled => true
  | .Disputed, .Completed => true
  | .Disputed, .Refunded => true
  | _, _ => false

/-- The spec's transition graph labelled by operation (§4.1 table): which
(source status, target status) pair each lifecycle operation is allowed to
realize.  `resolve_dispute` is labelled by its `favor_seller` argument:
Completed when true, Refunded when false. -/
def opTransition : Op → EscrowStatus → EscrowStatus → Bool
  | .fund .., .Created, .Funded => true
  | .markShipped .., .Funded, .Shipped => true
  | .confirmDelivery .., .Shipped, .Completed => true
  | .dispute .., .Funded, .Disputed => true
  | .dispute .., .Shipped, .Disputed => true
  | .cancel .., .Created, .Cancelled => true
  | .cancel .., .Funded, .Cancelled => true
  | .resolveDispute _ _ _ true _, .Disputed, .Completed => true
  | .resolveDispute _ _ _ false _, .Disputed, .Refunded => true
  | _, _, _ => false

/-- The status precondition set of each operation (spec §4.1 table). -/
def statusPre : Op → EscrowStatus → Bool
  | .fund .., .Created => true
  | .markShipped .., .Funded => true
  | .confirmDelivery .., .Shipped => true
  | .dispute .., .Funded => true
  | .dispute .., .Shipped => true
  | .cancel .., .Created => true
  | .cancel .., .Funded => true
  | .resolveDispute .., .Disputed => true
  | _, _ => false

/-- The caller/account identity checks of each operation (the Anchor
constraints), independent of status. -/
def roleOK (c : Chain) : Op → Bool
  | .fund s _ _ => c.escrow.buyer == s
  | .markShipped s _ _ => c.escrow.seller == s
  | .confirmDelivery s sa _ => c.escrow.buyer == s && c.escrow.seller == sa
  | .dispute s _ _ => c.escrow.buyer == s || c.escrow.seller == s
  | .cancel s _ => c.escrow.buyer == s
  | .resolveDispute s ba sa _ _ =>
      c.mpAuthority == s && c.escrow.buyer == ba && c.escrow.seller == sa

/-- The spec's terminal statuses. -/
def isTerminal : EscrowStatus → Bool
  | .Completed => true
  | .Cancelled => true
  | .Refunded => true
  | _ => false

/-- Custody invariant (spec §3): the vault holds exactly `amount` in
Funded/Shipped/Disputed and nothing otherwise. -/
def custodyInv (c : Chain) : Prop :=
  ((c.escrow.status = .Funded ∨ c.escrow.status = .Shipped ∨
      c.escrow.status = .Disputed) → c.vault = c.escrow.amount) ∧
  ((c.escrow.status = .Created ∨ c.escrow.status = .Completed ∨
      c.escrow.status = .Cancelled ∨ c.escrow.status = .Refunded) → c.vault = 0)

/-- All record fields other than `status` and `updated_at` agree. -/
def recordFrame (e e' : Escrow) : Prop :=
  e'.marketplace = e.marketplace ∧ e'.buyer = e.buyer ∧ e'.seller = e.seller ∧
  e'.product = e.product ∧ e'.quantity = e.quantity ∧ e'.amount = e.amount ∧
  e'.currency = e.currency ∧ e'.created_at = e.created_at ∧ e'.bump = e.bump

/-- The exact balance movement of each successful operation: each transfer
site moves exactly the stored `amount`. -/
def balanceDelta (c : Chain) (op : Op) (c' : Chain) : Prop :=
  match op with
  | .fund .. =>
      c'.vault = c.vault + c.escrow.amount ∧
      c'.buyerBal = c.buyerBal - c.escrow.amount ∧ c'.sellerBal = c.sellerBal
  | .markShipped .. =>
      c'.vault = c.vault ∧ c'.buyerBal = c.buyerBal ∧ c'.sellerBal = c.sellerBal
  | .confirmDelivery .. =>
      c'.vault = c.vault - c.escrow.amount ∧ c'.buyerBal = c.buyerBal ∧
      c'.sellerBal = c.sellerBal + c.escrow.amount
  | .dispute .. =>
      c'.vault = c.vault ∧ c'.buyerBal = c.buyerBal ∧ c'.sellerBal = c.sellerBal
  | .cancel .. =>
      if c.escrow.status = .Funded then
        c'.vault = c.vault - c.escrow.amount ∧
        c'.buyerBal = c.buyerBal + c.escrow.amount ∧ c'.sellerBal = c.sellerBal
      else
        c'.vault = c.vault ∧ c'.buyerBal = c.buyerBal ∧ c'.sellerBal = c.sellerBal
  | .resolveDispute _ _ _ f _ =>
      if f then
        c'.vault = c.vault - c.escrow.amount ∧ c'.buyerBal = c.buyerBal ∧
        c'.sellerBal = c.sellerBal + c.escrow.amount
      else
        c'.vault = c.vault - c.escrow.amount ∧
        c'.buyerBal = c.buyerBal + c.escrow.amount ∧ c'.sellerBal = c.sellerBal

/-- The error codes each operation can return. -/
def opErrors : Op → EscrowError → Bool
  | .fund .., .UnauthorizedBuyer => true
  | .fund .., .InvalidEscrowState => true
  | .fund .., .InsufficientFunds => true
  | .fund .., .ExternalTransferFailed => true
  | .markShipped .., .UnauthorizedSeller => true
  | .markShipped .., .InvalidEscrowState => true
  | .markShipped .., .TrackingIdTooLong => true
  | .confirmDelivery .., .UnauthorizedBuyer => true
  | .confirmDelivery .., .InvalidEscrowAccount => true
  | .confirmDelivery .., .InvalidEscrowState => true
  | .confirmDelivery .., .ExternalTransferFailed => true
  | .dispute .., .Unauthorized => true
  | .dispute .., .InvalidEscrowState => true
  | .dispute .., .DisputeReasonTooLong => true
  | .cancel .., .UnauthorizedBuyer => true
  | .cancel .., .InvalidEscrowState => true
  | .cancel .., .ExternalTransferFailed => true
  | .resolveDispute .., .UnauthorizedAuthority => true
  | .resolveDispute .., .InvalidEscrowAccount => true
  | .resolveDispute .., .InvalidEscrowState => true
  | .resolveDispute .., .ExternalTransferFailed => true
  | _, _ => false

end AgroMark

/-! ### Concrete example values, used by witnesses and sanity instances -/

namespace AgroMark

/-- An Active product priced 100 SOL-units with 10 in stock. -/
def pEx : Product :=
  { marketplace := 1, seller := 2, price := 100, quantity := 10,
    currency := .SOL, status := .Active, created_at := 0, updated_at := 0 }

/-- The record `create_escrow 1 3 4 pEx 3 5 7` persists. -/
def eEx : Escrow :=
  { marketplace := 1, buyer := 3, seller := 2, product := 4, quantity := 3,
    amount := 300, currency := .SOL, status := .Created, created_at := 5,
    updated_at := 5, bump := 7 }

/-- A freshly created escrow: empty vault, buyer holds 1000. -/
def cEx : Chain :=
  { escrow := eEx, vault := 0, buyerBal := 1000, sellerBal := 0,
    product := pEx, mpAuthority := 9 }

/-- `cEx` after a successful `fund_escrow`. -/
def cFunded : Chain :=
  { escrow := { eEx with status := .Funded, updated_at := 6 }, vault := 300,
    buyerBal := 700, sellerBal := 0, product := pEx, mpAuthority := 9 }

/-- `cFunded` after a successful `mark_as_shipped`. -/
def cShipped : Chain :=
  { escrow := { eEx with status := .Shipped, updated_at := 7 }, vault := 300,
    buyerBal := 700, sellerBal := 0, product := pEx, mpAuthority := 9 }

/-- `cFunded` after a successful `dispute_transaction`. -/
def cDisputed : Chain :=
  { escrow := { eEx with status := .Disputed, updated_at := 7 }, vault := 300,
    buyerBal := 700, sellerBal := 0, product := pEx, mpAuthority := 9 }

/-- A Created escrow whose `amount` is `u64::MAX`: the SOL funding threshold
`amount + rent.minimum_balance(0)` wraps, so a buyer holding a single lamport
passes the guard. -/
def cWrap : Chain :=
  { escrow := { eEx with amount := 18446744073709551615 }, vault := 0,
    buyerBal := 1, sellerBal := 0, product := pEx, mpAuthority := 9 }

end AgroMark

/-! ### Success and failure characterization lemmas (shared helpers) -/

namespace AgroMark

theorem create_ok {mk bk pk : Nat} {p : Product} {q : Nat} {t : Int} {bump : Nat}
    {e : Escrow} (h : create_escrow mk bk pk p q t bump = .ok e) :
    0 < q ∧ p.price * q < U64LIMIT ∧
    e = { marketplace := mk, buyer := bk, seller := p.seller, product := pk,
          quantity := q, amount := p.price * q, currency := p.currency,
          status := .Created, created_at := t, updated_at := t, bump := bump } := by
  unfold create_escrow at h
  split at h
  · split at h
    · cases h
    · rename_i total heq
      unfold checked_mul at heq
      split at heq
      · cases heq
        cases h
        exact ⟨by assumption, by assumption, rfl⟩
      · cases heq
  · cases h

theorem fund_ok {c : Chain} {s r : Nat} {t : Int} {c' : Chain}
    (h : fund_escrow c s r t = .ok c') :
    c.escrow.buyer = s ∧ c.escrow.status = .Created ∧
    c.escrow.amount ≤ c.buyerBal ∧
    c' = { c with
           buyerBal := c.buyerBal - c.escrow.amount
           vault := c.vault + c.escrow.amount
           escrow := { c.escrow with status := .Funded, updated_at := t } } := by
  unfold fund_escrow at h
  repeat' split at h
  all_goals cases h
  all_goals exact ⟨by assumption, by assumption, by assumption, rfl⟩

theorem mark_ok {c : Chain} {s : Nat} {tid : Option String} {t : Int} {c' : Chain}
    (h : mark_as_shipped c s tid t = .ok c') :
    c.escrow.seller = s ∧ c.escrow.status = .Funded ∧
    c' = { c with escrow := { c.escrow with status := .Shipped, updated_at := t } } := by
  unfold mark_as_shipped at h
  repeat' split at h
  all_goals cases h
  all_goals exact ⟨by assumption, by assumption, rfl⟩

theorem confirm_ok {c : Chain} {s sa : Nat} {t : Int} {c' : Chain}
    (h : confirm_delivery c s sa t = .ok c') :
    c.escrow.buyer = s ∧ c.escrow.seller = sa ∧ c.escrow.status = .Shipped ∧
    c.escrow.amount ≤ c.vault ∧
    c' = { c with
           vault := c.vault - c.escrow.amount
           sellerBal := c.sellerBal + c.escrow.amount
           escrow := { c.escrow with status := .Completed, updated_at := t } } := by
  unfold confirm_delivery at h
  repeat' split at h
  all_goals cases h
  all_goals exact ⟨by assumption, by assumption, by assumption, by assumption, rfl⟩

theorem dispute_ok {c : Chain} {s : Nat} {reason : String} {t : Int} {c' : Chain}
    (h : dispute_transaction c s reason t = .ok c') :
    (c.escrow.buyer = s ∨ c.escrow.seller = s) ∧
    (c.escrow.status = .Funded ∨ c.escrow.status = .Shipped) ∧
    reason.utf8ByteSize ≤ 200 ∧
    c' = { c with escrow := { c.escrow with status := .Disputed, updated_at := t } } := by
  unfold dispute_transaction at h
  repeat' split at h
  all_goals cases h
  all_goals exact ⟨by assumption, by assumption, by assumption, rfl⟩

theorem cancel_ok {c : Chain} {s : Nat} {t : Int} {c' : Chain}
    (h : cancel_escrow c s t = .ok c') :
    c.escrow.buyer = s ∧
    ((c.escrow.status = .Funded ∧ c.escrow.amount ≤ c.vault ∧
        c' = { c with
               vault := c.vault - c.escrow.amount
               buyerBal := c.buyerBal + c.escrow.amount
               escrow := { c.escrow with status := .Cancelled, updated_at := t } }) ∨
     (c.escrow.status = .Created ∧
        c' = { c with escrow := { c.escrow with status := .Cancelled, updated_at := t } })) := by
  unfold cancel_escrow at h
  repeat' split at h
  all_goals cases h
  all_goals first
    | exact ⟨by assumption, Or.inl ⟨by assumption, by assumption, rfl⟩⟩
    | exact ⟨by assumption, Or.inr ⟨by tauto, rfl⟩⟩

theorem resolve_ok {c : Chain} {s ba sa : Nat} {f : Bool} {t : Int} {c' : Chain}
    (h : resolve_dispute c s ba sa f t = .ok c') :
    c.mpAuthority = s ∧ c.escrow.buyer = ba ∧ c.escrow.seller = sa ∧
    c.escrow.status = .Disputed ∧ c.escrow.amount ≤ c.vault ∧
    ((f = true ∧
        c' = { c with
               vault := c.vault - c.escrow.amount
               sellerBal := c.sellerBal + c.escrow.amount
               escrow := { c.escrow with status := .Completed, updated_at := t } }) ∨
     (f = false ∧
        c' = { c with
               vault := c.vault - c.escrow.amount
               buyerBal := c.buyerBal + c.escrow.amount
               escrow := { c.escrow with status := .Refunded, updated_at := t } })) := by
  unfold resolve_dispute at h
  repeat' split at h
  all_goals cases h
  all_goals first
    | exact ⟨by assumption, by assumption, by assumption, by assumption,
        by assumption, Or.inl ⟨by assumption, rfl⟩⟩
    | exact ⟨by assumption, by assumption, by assumption, by assumption,
        by assumption, Or.inr ⟨by simp_all, rfl⟩⟩

end AgroMark

namespace AgroMark

theorem fund_bad_status {c : Chain} {s r : Nat} {t : Int}
    (hb : c.escrow.buyer = s) (hs : c.escrow.status ≠ .Created) :
    fund_escrow c s r t = .error .InvalidEscrowState := by
  unfold fund_escrow
  rw [if_pos hb, if_neg hs]

theorem mark_bad_status {c : Chain} {s : Nat} {tid : Option String} {t : Int}
    (hb : c.escrow.seller = s) (hs : c.escrow.status ≠ .Funded) :
    mark_as_shipped c s tid t = .error .InvalidEscrowState := by
  unfold mark_as_shipped
  rw [if_pos hb, if_neg hs]

theorem confirm_bad_status {c : Chain} {s sa : Nat} {t : Int}
    (hb : c.escrow.buyer = s) (hsa : c.escrow.seller = sa)
    (hs : c.escrow.status ≠ .Shipped) :
    confirm_delivery c s sa t = .error .InvalidEscrowState := by
  unfold confirm_delivery
  rw [if_pos hb, if_pos hsa, if_neg hs]

theorem dispute_bad_status {c : Chain} {s : Nat} {reason : String} {t : Int}
    (hb : c.escrow.buyer = s ∨ c.escrow.seller = s)
    (hs : ¬(c.escrow.status = .Funded ∨ c.escrow.status = .Shipped)) :
    dispute_transaction c s reason t = .error .InvalidEscrowState := by
  unfold dispute_transaction
  rw [if_pos hb, if_neg hs]

theorem cancel_bad_status {c : Chain} {s : Nat} {t : Int}
    (hb : c.escrow.buyer = s)
    (hs : ¬(c.escrow.status = .Created ∨ c.escrow.status = .Funded)) :
    cancel_escrow c s t = .error .InvalidEscrowState := by
  unfold cancel_escrow
  rw [if_pos hb, if_neg hs]

theorem resolve_bad_status {c : Chain} {s ba sa : Nat} {f : Bool} {t : Int}
    (ha : c.mpAuthority = s) (hba : c.escrow.buyer = ba)
    (hsa : c.escrow.seller = sa) (hs : c.escrow.status ≠ .Disputed) :
    resolve_dispute c s ba sa f t = .error .InvalidEscrowState := by
  unfold resolve_dispute
  rw [if_pos ha, if_pos hba, if_pos hsa, if_neg hs]

theorem mark_wrong_seller {c : Chain} {s : Nat} {tid : Option String} {t : Int}
    (h : c.escrow.seller ≠ s) :
    mark_as_shipped c s tid t = .error .UnauthorizedSeller := by
  unfold mark_as_shipped
  rw [if_neg h]

theorem confirm_wrong_buyer {c : Chain} {s sa : Nat} {t : Int}
    (h : c.escrow.buyer ≠ s) :
    confirm_delivery c s sa t = .error .UnauthorizedBuyer := by
  unfold confirm_delivery
  rw [if_neg h]

theorem resolve_wrong_authority {c : Chain} {s ba sa : Nat} {f : Bool} {t : Int}
    (h : c.mpAuthority ≠ s) :
    resolve_dispute c s ba sa f t = .error .UnauthorizedAuthority := by
  unfold resolve_dispute
  rw [if_neg h]

theorem fund_wrong_buyer {c : Chain} {s r : Nat} {t : Int}
    (h : c.escrow.buyer ≠ s) :
    fund_escrow c s r t = .error .UnauthorizedBuyer := by
  unfold fund_escrow
  rw [if_neg h]

theorem cancel_wrong_buyer {c : Chain} {s : Nat} {t : Int}
    (h : c.escrow.buyer ≠ s) :
    cancel_escrow c s t = .error .UnauthorizedBuyer := by
  unfold cancel_escrow
  rw [if_neg h]

theorem applyOp_error_code {c : Chain} {op : Op} {e : EscrowError}
    (h : applyOp c op = .error e) : opErrors op e = true := by
  cases op
  all_goals
    simp only [applyOp] at h
    first
      | unfold fund_escrow at h
      | unfold mark_as_shipped at h
      | unfold confirm_delivery at h
      | unfold dispute_transaction at h
      | unfold cancel_escrow at h
      | unfold resolve_dispute at h
    repeat' split at h
    all_goals cases h
    all_goals rfl

end AgroMark

namespace AgroMark

theorem applyOp_ok_graph {c : Chain} {op : Op} {c' : Chain}
    (h : applyOp c op = .ok c') :
    statusPre op c.escrow.status = true ∧
    opTransition op c.escrow.status c'.escrow.status = true ∧
    transOK c.escrow.status c'.escrow.status = true := by
  cases op with
  | fund s r t =>
      obtain ⟨_, hst, _, hc⟩ := fund_ok h
      subst hc
      rw [hst]
      exact ⟨rfl, rfl, rfl⟩
  | markShipped s tid t =>
      obtain ⟨_, hst, hc⟩ := mark_ok h
      subst hc
      rw [hst]
      exact ⟨rfl, rfl, rfl⟩
  | confirmDelivery s sa t =>
      obtain ⟨_, _, hst, _, hc⟩ := confirm_ok h
      subst hc
      rw [hst]
      exact ⟨rfl, rfl, rfl⟩
  | dispute s reason t =>
      obtain ⟨_, hst, _, hc⟩ := dispute_ok h
      subst hc
      rcases hst with hst | hst <;> rw [hst] <;> exact ⟨rfl, rfl, rfl⟩
  | cancel s t =>
      obtain ⟨_, hcase⟩ := cancel_ok h
      rcases hcase with ⟨hst, _, hc⟩ | ⟨hst, hc⟩ <;> subst hc <;> rw [hst] <;>
        exact ⟨rfl, rfl, rfl⟩
  | resolveDispute s ba sa f t =>
      obtain ⟨_, _, _, hst, _, hcase⟩ := resolve_ok h
      rcases hcase with ⟨hf, hc⟩ | ⟨hf, hc⟩ <;> subst hc <;> subst hf <;>
        rw [hst] <;> exact ⟨rfl, rfl, rfl⟩

theorem roleOK_bad_status {c : Chain} {op : Op}
    (hrole : roleOK c op = true) (hpre : statusPre op c.escrow.status = false) :
    applyOp c op = .error .InvalidEscrowState := by
  cases op with
  | fund s r t =>
      simp only [roleOK, beq_iff_eq] at hrole
      refine fund_bad_status hrole fun heq => ?_
      rw [heq] at hpre
      exact absurd hpre (by simp [statusPre])
  | markShipped s tid t =>
      simp only [roleOK, beq_iff_eq] at hrole
      refine mark_bad_status hrole fun heq => ?_
      rw [heq] at hpre
      exact absurd hpre (by simp [statusPre])
  | confirmDelivery s sa t =>
      simp only [roleOK, Bool.and_eq_true, beq_iff_eq] at hrole
      refine confirm_bad_status hrole.1 hrole.2 fun heq => ?_
      rw [heq] at hpre
      exact absurd hpre (by simp [statusPre])
  | dispute s reason t =>
      simp only [roleOK, Bool.or_eq_true, beq_iff_eq] at hrole
      refine dispute_bad_status hrole fun hor => ?_
      rcases hor with heq | heq <;> rw [heq] at hpre <;>
        exact absurd hpre (by simp [statusPre])
  | cancel s t =>
      simp only [roleOK, beq_iff_eq] at hrole
      refine cancel_bad_status hrole fun hor => ?_
      rcases hor with heq | heq <;> rw [heq] at hpre <;>
        exact absurd hpre (by simp [statusPre])
  | resolveDispute s ba sa f t =>
      simp only [roleOK, Bool.and_eq_true, beq_iff_eq] at hrole
      refine resolve_bad_status hrole.1.1 hrole.1.2 hrole.2 fun heq => ?_
      rw [heq] at hpre
      exact absurd hpre (by simp [statusPre])

theorem terminal_no_pre {op : Op} {s : EscrowStatus}
    (h : isTerminal s = true) : statusPre op s = false := by
  cases op <;> cases s <;> simp_all [isTerminal, statusPre]

end AgroMark

namespace AgroMark

theorem custody_preserved {c : Chain} {op : Op} {c' : Chain}
    (hinv : custodyInv c) (h : applyOp c op = .ok c') : custodyInv c' := by
  cases op with
  | fund s r t =>
      obtain ⟨_, hst, _, hc⟩ := fund_ok h
      subst hc
      have h0 : c.vault = 0 := hinv.2 (Or.inl hst)
      simp [custodyInv, h0]
  | markShipped s tid t =>
      obtain ⟨_, hst, hc⟩ := mark_ok h
      subst hc
      have hv : c.vault = c.escrow.amount := hinv.1 (Or.inl hst)
      simp [custodyInv, hv]
  | confirmDelivery s sa t =>
      obtain ⟨_, _, hst, _, hc⟩ := confirm_ok h
      subst hc
      have hv : c.vault = c.escrow.amount := hinv.1 (Or.inr (Or.inl hst))
      simp [custodyInv, hv]
  | dispute s reason t =>
      obtain ⟨_, hst, _, hc⟩ := dispute_ok h
      subst hc
      have hv : c.vault = c.escrow.amount := hinv.1 (by tauto)
      simp [custodyInv, hv]
  | cancel s t =>
      obtain ⟨_, hcase⟩ := cancel_ok h
      rcases hcase with ⟨hst, _, hc⟩ | ⟨hst, hc⟩ <;> subst hc
      · have hv : c.vault = c.escrow.amount := hinv.1 (Or.inl hst)
        simp [custodyInv, hv]
      · have h0 : c.vault = 0 := hinv.2 (Or.inl hst)
        simp [custodyInv, h0]
  | resolveDispute s ba sa f t =>
      obtain ⟨_, _, _, hst, _, hcase⟩ := resolve_ok h
      have hv : c.vault = c.escrow.amount := hinv.1 (Or.inr (Or.inr hst))
      rcases hcase with ⟨_, hc⟩ | ⟨_, hc⟩ <;> subst hc <;> simp [custodyInv, hv]

theorem applyOp_ok_product {c : Chain} {op : Op} {c' : Chain}
    (h : applyOp c op = .ok c') : c'.product = c.product := by
  cases op with
  | fund s r t =>
      obtain ⟨_, _, _, hc⟩ := fund_ok h
      subst hc; rfl
  | markShipped s tid t =>
      obtain ⟨_, _, hc⟩ := mark_ok h
      subst hc; rfl
  | confirmDelivery s sa t =>
      obtain ⟨_, _, _, _, hc⟩ := confirm_ok h
      subst hc; rfl
  | dispute s reason t =>
      obtain ⟨_, _, _, hc⟩ := dispute_ok h
      subst hc; rfl
  | cancel s t =>
      obtain ⟨_, hcase⟩ := cancel_ok h
      rcases hcase with ⟨_, _, hc⟩ | ⟨_, hc⟩ <;> subst hc <;> rfl
  | resolveDispute s ba sa f t =>
      obtain ⟨_, _, _, _, _, hcase⟩ := resolve_ok h
      rcases hcase with ⟨_, hc⟩ | ⟨_, hc⟩ <;> subst hc <;> rfl

end AgroMark

/-! ### Claim theorems -/

namespace AgroMark

/-- Claim C1: every lifecycle operation changes `status` only along its own
labelled edges of the §4.1 transition graph — `fund` takes Created to Funded,
`mark_as_shipped` takes Funded to Shipped, `confirm_delivery` takes Shipped
to Completed, `dispute_transaction` takes Funded or Shipped to Disputed,
`cancel_escrow` takes Created or Funded to Cancelled, and `resolve_dispute`
takes Disputed to Completed (favor_seller) or Refunded — so no operation ever
sets a status outside the graph; from a status outside an operation's
precondition set the operation cannot succeed, and when the caller satisfies
the operation's role constraints it fails with `InvalidEscrowState` (the
`Except.error` result carries no post-state, so the record is unchanged); the
terminal statuses Completed, Cancelled and Refunded admit no further
successful operation. -/
theorem lifecycle_follows_transition_graph (c : Chain) (op : Op) :
    (∀ c', applyOp c op = .ok c' →
      opTransition op c.escrow.status c'.escrow.status = true ∧
      transOK c.escrow.status c'.escrow.status = true) ∧
    (statusPre op c.escrow.status = false →
      (∀ c', applyOp c op ≠ .ok c') ∧
      (roleOK c op = true → applyOp c op = .error .InvalidEscrowState)) ∧
    (isTerminal c.escrow.status = true → ∀ c', applyOp c op ≠ .ok c') := by
  have hno : statusPre op c.escrow.status = false → ∀ c', applyOp c op ≠ .ok c' := by
    intro hpre c' h
    have hok := (applyOp_ok_graph h).1
    rw [hpre] at hok
    exact Bool.false_ne_true hok
  exact ⟨fun c' h => (applyOp_ok_graph h).2,
    fun hpre => ⟨hno hpre, fun hrole => roleOK_bad_status hrole hpre⟩,
    fun hterm => hno (terminal_no_pre hterm)⟩

/-- Sanity instance for C1's labelled graph: `fund` is allowed to take
Created only to Funded — in particular not to Cancelled — and
`confirm_delivery` may not take Shipped to Disputed. -/
theorem labelled_transition_example :
    opTransition (Op.fund 3 10 6) EscrowStatus.Created EscrowStatus.Funded = true ∧
    opTransition (Op.fund 3 10 6) EscrowStatus.Created EscrowStatus.Cancelled = false ∧
    opTransition (Op.confirmDelivery 3 2 8) EscrowStatus.Shipped
      EscrowStatus.Disputed = false :=
  ⟨rfl, rfl, rfl⟩

/-- Claim C2: on every chain reachable from creation, the custody vault holds
exactly `amount` while the status is Funded, Shipped or Disputed, and zero
while it is Created, Completed, Cancelled or Refunded. -/
theorem custody_balance_matches_status (c : Chain) (h : Reachable c) :
    custodyInv c := by
  induction h with
  | created mk bk pk p q t bump e bBal sBal auth h =>
      obtain ⟨_, _, he⟩ := create_ok h
      subst he
      simp [custodyInv]
  | step c op c' hr h ih => exact custody_preserved ih h

theorem custody_balance_matches_status_witness : custodyInv cEx :=
  custody_balance_matches_status cEx
    (Reachable.created 1 3 4 pEx 3 5 7 eEx 1000 0 9 rfl)

/-- Claim C3: `create_escrow` succeeds exactly on a positive quantity whose
total `price × quantity` fits in a `u64`, persisting a record with amount
`price × quantity`, status Created, and seller/currency copied from the
product; quantity 0 yields `InvalidQuantity` and a `u64` overflow of the
product yields `CalculationError` with no record persisted. -/
theorem create_escrow_computes_checked_amount (mk bk pk : Nat) (p : Product)
    (q : Nat) (t : Int) (bump : Nat) :
    (0 < q → p.price * q < U64LIMIT →
      create_escrow mk bk pk p q t bump =
        .ok { marketplace := mk, buyer := bk, seller := p.seller, product := pk,
              quantity := q, amount := p.price * q, currency := p.currency,
              status := .Created, created_at := t, updated_at := t, bump := bump }) ∧
    (create_escrow mk bk pk p 0 t bump = .error .InvalidQuantity) ∧
    (0 < q → U64LIMIT ≤ p.price * q →
      create_escrow mk bk pk p q t bump = .error .CalculationError) := by
  refine ⟨fun hq hlt => ?_, ?_, fun hq hge => ?_⟩
  · unfold create_escrow checked_mul
    rw [if_pos (show q > 0 from hq), if_pos hlt]
  · unfold create_escrow
    rw [if_neg (by omega)]
  · unfold create_escrow checked_mul
    rw [if_pos (show q > 0 from hq), if_neg (by omega)]

/-- Sanity instance for C3's overflow example: price `2^63` and quantity 4
overflow a `u64`, so creation fails with `CalculationError`. -/
theorem create_overflow_example :
    create_escrow 1 3 4 { pEx with price := 9223372036854775808 } 4 5 7 =
      .error .CalculationError := rfl

/-- Claim C4: every lifecycle failure is atomic: an operation that returns an
error returns one of that operation's specific error codes, and the
post-transaction chain (record, balances, product) is exactly the pre-state. -/
theorem lifecycle_failures_atomic (c : Chain) (op : Op) (e : EscrowError)
    (h : applyOp c op = .error e) :
    runOp c op = c ∧ opErrors op e = true := by
  refine ⟨?_, applyOp_error_code h⟩
  simp [runOp, h]

theorem lifecycle_failures_atomic_witness :
    runOp cEx (Op.fund 999 10 6) = cEx ∧
    opErrors (Op.fund 999 10 6) EscrowError.UnauthorizedBuyer = true :=
  lifecycle_failures_atomic cEx (Op.fund 999 10 6) EscrowError.UnauthorizedBuyer rfl

end AgroMark

namespace AgroMark

/-- Claim C5: `resolve_dispute`, invoked on a Disputed escrow by the
marketplace authority (with the buyer/seller accounts matching the record),
moves exactly `amount` from the custody vault to the seller and sets status
Completed when `favor_seller` is true, and to the buyer with status Refunded
when it is false, refreshing `updated_at`; from any other status it fails
with `InvalidEscrowState`, and any caller other than the marketplace
authority fails with `UnauthorizedAuthority`. -/
theorem resolve_dispute_spec (c : Chain) (s ba sa : Nat) (f : Bool) (t : Int) :
    (c.mpAuthority = s → c.escrow.buyer = ba → c.escrow.seller = sa →
      c.escrow.status = .Disputed → c.escrow.amount ≤ c.vault →
      resolve_dispute c s ba sa f t =
        .ok (if f then
              { c with
                vault := c.vault - c.escrow.amount
                sellerBal := c.sellerBal + c.escrow.amount
                escrow := { c.escrow with status := .Completed, updated_at := t } }
             else
              { c with
                vault := c.vault - c.escrow.amount
                buyerBal := c.buyerBal + c.escrow.amount
                escrow := { c.escrow with status := .Refunded, updated_at := t } })) ∧
    (c.mpAuthority = s → c.escrow.buyer = ba → c.escrow.seller = sa →
      c.escrow.status ≠ .Disputed →
      resolve_dispute c s ba sa f t = .error .InvalidEscrowState) ∧
    (c.mpAuthority ≠ s →
      resolve_dispute c s ba sa f t = .error .UnauthorizedAuthority) := by
  refine ⟨fun ha hba hsa hst hle => ?_,
    fun ha hba hsa hst => resolve_bad_status ha hba hsa hst,
    fun hne => resolve_wrong_authority hne⟩
  unfold resolve_dispute
  rw [if_pos ha, if_pos hba, if_pos hsa, if_pos hst, if_pos ha]
  split <;> rw [if_pos hle] <;> cases f <;> rfl

/-- Sanity instance for C5: resolving `cDisputed` against the seller refunds
the buyer in full and marks the escrow Refunded. -/
theorem resolve_dispute_example :
    resolve_dispute cDisputed 9 3 2 false 8 =
      .ok { escrow := { eEx with status := .Refunded, updated_at := 8 },
            vault := 0, buyerBal := 1000, sellerBal := 0, product := pEx,
            mpAuthority := 9 } := rfl

/-- Claim C6: role checks are independent of status: whatever the current
status, `mark_as_shipped` by a non-seller fails with `UnauthorizedSeller`,
`confirm_delivery` by a non-buyer fails with `UnauthorizedBuyer`, and
`resolve_dispute` by a caller other than the marketplace authority fails with
`UnauthorizedAuthority` (the status field is never consulted). -/
theorem role_checks_ignore_status (c : Chain) (s ba sa : Nat)
    (tid : Option String) (f : Bool) (t : Int) :
    (c.escrow.seller ≠ s → mark_as_shipped c s tid t = .error .UnauthorizedSeller) ∧
    (c.escrow.buyer ≠ s → confirm_delivery c s sa t = .error .UnauthorizedBuyer) ∧
    (c.mpAuthority ≠ s → resolve_dispute c s ba sa f t = .error .UnauthorizedAuthority) :=
  ⟨mark_wrong_seller, confirm_wrong_buyer, resolve_wrong_authority⟩

/-- Sanity instance for C6: even in a terminal status the non-seller check
fires first. -/
theorem role_check_example :
    mark_as_shipped { cEx with escrow := { eEx with status := .Completed } }
      42 none 9 = .error .UnauthorizedSeller := rfl

/-- Claim C7: every successful post-creation operation modifies only the
`status` and `updated_at` fields of the record (marketplace, buyer, seller,
product, quantity, amount, currency, created_at and the bump nonce are
untouched, and the product account is untouched), and each transfer site
moves exactly the stored `amount`. -/
theorem lifecycle_frame_condition (c : Chain) (op : Op) (c' : Chain)
    (h : applyOp c op = .ok c') :
    recordFrame c.escrow c'.escrow ∧ c'.product = c.product ∧
    c'.mpAuthority = c.mpAuthority ∧ balanceDelta c op c' := by
  cases op with
  | fund s r t =>
      obtain ⟨_, hst, _, hc⟩ := fund_ok h
      subst hc
      exact ⟨⟨rfl, rfl, rfl, rfl, rfl, rfl, rfl, rfl, rfl⟩, rfl, rfl, rfl, rfl, rfl⟩
  | markShipped s tid t =>
      obtain ⟨_, hst, hc⟩ := mark_ok h
      subst hc
      exact ⟨⟨rfl, rfl, rfl, rfl, rfl, rfl, rfl, rfl, rfl⟩, rfl, rfl, rfl, rfl, rfl⟩
  | confirmDelivery s sa t =>
      obtain ⟨_, _, hst, _, hc⟩ := confirm_ok h
      subst hc
      exact ⟨⟨rfl, rfl, rfl, rfl, rfl, rfl, rfl, rfl, rfl⟩, rfl, rfl, rfl, rfl, rfl⟩
  | dispute s reason t =>
      obtain ⟨_, hst, _, hc⟩ := dispute_ok h
      subst hc
      exact ⟨⟨rfl, rfl, rfl, rfl, rfl, rfl, rfl, rfl, rfl⟩, rfl, rfl, rfl, rfl, rfl⟩
  | cancel s t =>
      obtain ⟨_, hcase⟩ := cancel_ok h
      rcases hcase with ⟨hst, _, hc⟩ | ⟨hst, hc⟩ <;> subst hc <;>
        refine ⟨⟨rfl, rfl, rfl, rfl, rfl, rfl, rfl, rfl, rfl⟩, rfl, rfl, ?_⟩ <;>
        simp [balanceDelta, hst]
  | resolveDispute s ba sa f t =>
      obtain ⟨_, _, _, hst, _, hcase⟩ := resolve_ok h
      rcases hcase with ⟨hf, hc⟩ | ⟨hf, hc⟩ <;> subst hc <;> subst hf <;>
        exact ⟨⟨rfl, rfl, rfl, rfl, rfl, rfl, rfl, rfl, rfl⟩, rfl, rfl, rfl, rfl, rfl⟩

theorem lifecycle_frame_condition_witness :
    recordFrame cEx.escrow cFunded.escrow ∧ cFunded.product = cEx.product ∧
    cFunded.mpAuthority = cEx.mpAuthority ∧
    balanceDelta cEx (Op.fund 3 10 6) cFunded :=
  lifecycle_frame_condition cEx (Op.fund 3 10 6) cFunded rfl

end AgroMark

namespace AgroMark

set_option maxRecDepth 8000 in
/-- Counterexample to claim C8 as stated: the limits are byte limits
(Rust `String::len`), not character limits.  A dispute reason of exactly 200
characters, each the two-byte character é, is rejected with
`DisputeReasonTooLong` even though the escrow is Funded and the caller is the
buyer. -/
theorem dispute_rejects_200_character_reason :
    (String.mk (List.replicate 200 'é')).length = 200 ∧
    cFunded.escrow.status = EscrowStatus.Funded ∧ cFunded.escrow.buyer = 3 ∧
    dispute_transaction cFunded 3 (String.mk (List.replicate 200 'é')) 7 =
      .error .DisputeReasonTooLong :=
  ⟨by decide, rfl, rfl, rfl⟩

/-- Claim C8 (amended): the text-length boundaries are measured in UTF-8
bytes, Rust's `String::len`, not in characters: a dispute reason of exactly
200 bytes succeeds (given a disputable status and an authorized caller) and
201 bytes fails with `DisputeReasonTooLong`; a tracking id of exactly 50
bytes succeeds (given status Funded and the seller as caller) and 51 bytes
fails with `TrackingIdTooLong`.  For ASCII text bytes and characters
coincide. -/
theorem text_length_byte_boundaries (c : Chain) (s : Nat)
    (reason tid : String) (t : Int) :
    ((c.escrow.status = .Funded ∨ c.escrow.status = .Shipped) →
      (c.escrow.buyer = s ∨ c.escrow.seller = s) →
      reason.utf8ByteSize = 200 →
      dispute_transaction c s reason t =
        .ok { c with escrow := { c.escrow with status := .Disputed, updated_at := t } }) ∧
    ((c.escrow.status = .Funded ∨ c.escrow.status = .Shipped) →
      (c.escrow.buyer = s ∨ c.escrow.seller = s) →
      reason.utf8ByteSize = 201 →
      dispute_transaction c s reason t = .error .DisputeReasonTooLong) ∧
    (c.escrow.status = .Funded → c.escrow.seller = s →
      tid.utf8ByteSize = 50 →
      mark_as_shipped c s (some tid) t =
        .ok { c with escrow := { c.escrow with status := .Shipped, updated_at := t } }) ∧
    (c.escrow.status = .Funded → c.escrow.seller = s →
      tid.utf8ByteSize = 51 →
      mark_as_shipped c s (some tid) t = .error .TrackingIdTooLong) := by
  refine ⟨fun hst hrole h200 => ?_, fun hst hrole h201 => ?_,
    fun hst hsell h50 => ?_, fun hst hsell h51 => ?_⟩
  · unfold dispute_transaction
    rw [if_pos hrole, if_pos hst, if_pos (by tauto), if_pos (by omega)]
  · unfold dispute_transaction
    rw [if_pos hrole, if_pos hst, if_pos (by tauto), if_neg (by omega)]
  · unfold mark_as_shipped
    rw [if_pos hsell, if_pos hst, if_pos hsell]
    simp only [if_pos (show tid.utf8ByteSize ≤ 50 by omega)]
  · unfold mark_as_shipped
    rw [if_pos hsell, if_pos hst, if_pos hsell]
    simp only [if_neg (show ¬tid.utf8ByteSize ≤ 50 by omega)]

set_option maxRecDepth 8000 in
/-- Sanity instances for the amended C8 boundaries on ASCII strings. -/
theorem text_length_ascii_boundaries :
    dispute_transaction cFunded 3 (String.mk (List.replicate 200 'a')) 7 =
      .ok cDisputed ∧
    dispute_transaction cFunded 3 (String.mk (List.replicate 201 'a')) 7 =
      .error .DisputeReasonTooLong ∧
    mark_as_shipped cFunded 2 (some (String.mk (List.replicate 50 'a'))) 7 =
      .ok cShipped ∧
    mark_as_shipped cFunded 2 (some (String.mk (List.replicate 51 'a'))) 7 =
      .error .TrackingIdTooLong :=
  ⟨rfl, rfl, rfl, rfl⟩

/-- Claim C9: in `fund_escrow`'s SOL branch the threshold is the wrapping
`u64` sum `amount + rent.minimum_balance(0)`.  Below the wrap the guard
fails with `InsufficientFunds` exactly when the buyer holds less than
`amount + rentMin`; at and above the wrap the threshold collapses to
`amount + rentMin - 2^64`, strictly below the intended bound, so the guard no
longer implements "balance covers amount plus retention": a buyer at the
wrapped threshold passes it. -/
theorem fund_balance_guard_wraps (c : Chain) (s rentMin : Nat) (t : Int) :
    (c.escrow.currency = .SOL → c.escrow.buyer = s → c.escrow.status = .Created →
      c.escrow.amount + rentMin < U64LIMIT →
      (fund_escrow c s rentMin t = .error .InsufficientFunds ↔
        c.buyerBal < c.escrow.amount + rentMin)) ∧
    (c.escrow.amount < U64LIMIT → rentMin < U64LIMIT →
      U64LIMIT ≤ c.escrow.amount + rentMin →
      requiredLamports c.escrow.amount rentMin =
        c.escrow.amount + rentMin - U64LIMIT ∧
      requiredLamports c.escrow.amount rentMin < c.escrow.amount + rentMin ∧
      (c.escrow.currency = .SOL → c.escrow.buyer = s → c.escrow.status = .Created →
        requiredLamports c.escrow.amount rentMin ≤ c.buyerBal →
        fund_escrow c s rentMin t ≠ .error .InsufficientFunds)) := by
  constructor
  · intro hcur hb hst hnov
    unfold fund_escrow
    rw [if_pos hb, if_pos hst]
    simp only [hcur]
    have hreq : requiredLamports c.escrow.amount rentMin =
        c.escrow.amount + rentMin := by
      unfold requiredLamports
      exact Nat.mod_eq_of_lt hnov
    rw [hreq]
    rcases Nat.lt_or_ge c.buyerBal (c.escrow.amount + rentMin) with hlt | hge
    · rw [if_neg (by omega)]
      simp [hlt]
    · rw [if_pos (by omega), if_pos (by omega)]
      exact iff_of_false (by simp) (by omega)
  · intro ha hr hov
    refine ⟨?_, ?_, fun hcur hb hst hge => ?_⟩
    · unfold requiredLamports U64LIMIT
      unfold U64LIMIT at ha hr hov
      omega
    · unfold requiredLamports U64LIMIT
      unfold U64LIMIT at ha hr hov
      omega
    · unfold fund_escrow
      rw [if_pos hb, if_pos hst]
      simp only [hcur]
      rw [if_pos hge]
      split <;> simp

/-- Sanity instance for C9: with `amount = u64::MAX` and a rent minimum of 2
the wrapped threshold is 1, so a buyer holding a single lamport passes the
balance guard (the failure then comes from the transfer itself, not from the
guard). -/
theorem fund_wrap_example :
    requiredLamports 18446744073709551615 2 = 1 ∧
    fund_escrow cWrap 3 2 6 = .error .ExternalTransferFailed :=
  ⟨rfl, rfl⟩

/-- Claim C10: `create_escrow` reads only the product's price, seller and
currency — its result is unchanged by the product's status or remaining
inventory, and creation succeeds for any product (SoldOut, Deactivated,
Flagged, or with less inventory than requested) whenever the quantity is
positive and `price × quantity` fits a `u64`; no lifecycle operation touches
the product account (so inventory is never decremented), while the
marketplace's own `purchase_product` rejects any non-Active product. -/
theorem create_ignores_product_state (mk bk pk : Nat) (p p2 : Product)
    (q : Nat) (t : Int) (bump : Nat) (c : Chain) (op : Op) (c' : Chain) :
    (p.price = p2.price → p.seller = p2.seller → p.currency = p2.currency →
      create_escrow mk bk pk p q t bump = create_escrow mk bk pk p2 q t bump) ∧
    (0 < q → p.price * q < U64LIMIT →
      create_escrow mk bk pk p q t bump =
        .ok { marketplace := mk, buyer := bk, seller := p.seller, product := pk,
              quantity := q, amount := p.price * q, currency := p.currency,
              status := .Created, created_at := t, updated_at := t, bump := bump }) ∧
    (applyOp c op = .ok c' → c'.product = c.product) ∧
    (p.status ≠ .Active → purchase_product p q t = .error .ProductNotActive) := by
  refine ⟨fun hpr hse hcu => ?_, fun hq hlt => ?_, applyOp_ok_product, fun hna => ?_⟩
  · unfold create_escrow checked_mul
    rw [hpr, hse, hcu]
  · unfold create_escrow checked_mul
    rw [if_pos (show q > 0 from hq), if_pos hlt]
  · unfold purchase_product
    rw [if_neg hna]

/-- Sanity instance for C10: creating an escrow over a SoldOut product with
zero inventory and a request of 999 units still succeeds, while
`purchase_product` rejects the same product. -/
theorem create_soldout_example :
    create_escrow 1 3 4 { pEx with status := .SoldOut, quantity := 0 } 999 5 7 =
      .ok { eEx with quantity := 999, amount := 99900 } ∧
    purchase_product { pEx with status := .SoldOut, quantity := 0 } 999 5 =
      .error .ProductNotActive :=
  ⟨rfl, rfl⟩

end AgroMark
